import Mathlib

/-!
Shallow embedding of the TFTP worker (`src/worker.rs`) of rs-tftpd-timeout.

The worker drives one file transfer over a datagram socket: `send_file`
streams a file as Data packets in a sliding window and consumes cumulative
Acks; `receive_file` accepts Data packets in order and acknowledges each
window.  Block numbers are 16-bit and wrap modulo 65536.

The `Window` buffer, the `Packet` enum and the `Socket` trait are not part
of `src/`; they are modelled from the specification (sections 3, 4.1 and 6).
Network receptions and the passage of time are modelled by an explicit list
of `RecvEvent`s consumed by the loops; loops are given fuel where needed.
-/

namespace Tftpd

/-- 16-bit wrapping addition: `a.wrapping_add(b)` on `u16`. -/
def wadd (a b : Nat) : Nat := (a + b) % 65536

/-- 16-bit wrapping subtraction `a.wrapping_sub(b)` on `u16`,
for representatives `a b < 65536`. -/
def wsub (a b : Nat) : Nat := (a + 65536 - b) % 65536

/-- A data block: a sequence of bytes (each `≤ blk_size` bytes). -/
abbrev Block := List Nat

/-- Modelled from the spec: wire packet variants consumed and produced by
the core (spec section 6): `Data{block_num, payload}`, `Ack(block_num)`,
`Error{code, message}`. -/
inductive Packet where
  | data (blockNum : Nat) (payload : Block)
  | ack (blockNum : Nat)
  | error (code : Nat) (msg : String)
deriving DecidableEq, Repr

/-- Outcome of one `socket.recv()` poll: a decoded packet, or a failure
(no packet within the poll, or a malformed packet). -/
inductive RecvEvent where
  | ok (p : Packet)
  | err
deriving DecidableEq, Repr

/-- `MAX_RETRIES` from worker.rs line 14. -/
def MAX_RETRIES : Nat := 6

/-- Modelled from the spec: `Window::remove(n)` drops the first `n` entries
oldest-first and shifts the remainder; fails with a range error if `n`
exceeds the number of held entries (spec section 4.1). -/
def Window.remove (n : Nat) (w : List Block) : Option (List Block) :=
  if n ≤ w.length then some (w.drop n) else none

/-- Modelled from the spec: `Window::add(data)` appends one block at the
tail; fails with a capacity error if the buffer already holds
`windowsize` entries (spec section 4.1). -/
def Window.add (windowsize : Nat) (data : Block) (w : List Block) :
    Option (List Block) :=
  if w.length < windowsize then some (w ++ [data]) else none

/-- Modelled from the spec: `Window::is_full()`: the buffer holds
`windowsize` entries (spec sections 4.1 and 4.3). -/
def Window.isFull (windowsize : Nat) (w : List Block) : Bool :=
  w.length == windowsize

/-- Modelled from the spec: the read loop of `Window::fill()`.  While the
buffer holds fewer than `capacity` entries, read up to `blkSize` bytes from
the file; a short read (fewer than `blkSize` bytes, including zero) is the
end-of-file marker: its block is appended and `fill` reports the file
exhausted.  Returns (reached_eof, buffer, remaining file).  The fuel is the
number of free slots, so the recursion mirrors the `len < capacity` loop
guard (spec section 4.1). -/
def Window.fillAux (blkSize : Nat) :
    Nat → List Block → List Nat → Bool × List Block × List Nat
  | 0, w, file => (false, w, file)
  | n + 1, w, file =>
    let chunk := file.take blkSize
    let rest := file.drop blkSize
    if chunk.length < blkSize then (true, w ++ [chunk], rest)
    else Window.fillAux blkSize n (w ++ [chunk]) rest

/-- Modelled from the spec: `Window::fill()` tops the buffer up to
`capacity` entries, reporting whether the file was exhausted during this
call (spec section 4.1; in worker.rs the boolean `filled` at line 137 is
the negation of reached_eof, as required by the break at line 171 to
implement spec section 4.2 step 5). -/
def Window.fill (capacity blkSize : Nat) (w : List Block) (file : List Nat) :
    Bool × List Block × List Nat :=
  Window.fillAux blkSize (capacity - w.length) w file

/-- Result of handling one received event in the send inner loop
(worker.rs lines 148-168). -/
inductive SendStepResult where
  | cont (blockNumber : Nat) (w : List Block) (retryCnt : Nat)
  | brk (blockNumber : Nat) (w : List Block)
  | peerError (code : Nat) (msg : String)
  | timeoutError
  | rangeError
deriving DecidableEq, Repr

/-- One iteration of the `match self.socket.recv()` in `send_file`
(worker.rs lines 148-168): a valid cumulative Ack advances the base and
removes acknowledged entries, breaking the inner loop; a stale Ack is
ignored; a peer Error aborts; anything else (no packet, malformed packet,
or an unexpected packet kind) counts toward the retry budget. -/
def sendStep (windowsize blockNumber : Nat) (w : List Block)
    (retryCnt : Nat) : RecvEvent → SendStepResult
  | .ok (.ack n) =>
    let diff := wsub n blockNumber
    if diff ≤ windowsize then
      match Window.remove (diff + 1) w with
      | some w' => .brk (wadd n 1) w'
      | none => .rangeError
    else .cont blockNumber w retryCnt
  | .ok (.error c m) => .peerError c m
  | _ =>
    if retryCnt + 1 = MAX_RETRIES then .timeoutError
    else .cont blockNumber w (retryCnt + 1)

/-- Result of the send inner retry loop over a finite event list. -/
inductive SendInnerResult where
  | brk (blockNumber : Nat) (w : List Block) (rest : List RecvEvent)
  | peerError (code : Nat) (msg : String)
  | timeoutError
  | rangeError
  | exhausted (blockNumber : Nat) (w : List Block) (retryCnt : Nat)
deriving DecidableEq, Repr

/-- The inner retry loop of `send_file` (worker.rs lines 142-169), driven
by a finite list of receive events. -/
def sendInner (windowsize blockNumber : Nat) (w : List Block)
    (retryCnt : Nat) : List RecvEvent → SendInnerResult
  | [] => .exhausted blockNumber w retryCnt
  | e :: rest =>
    match sendStep windowsize blockNumber w retryCnt e with
    | .cont bn' w' r' => sendInner windowsize bn' w' r' rest
    | .brk bn' w' => .brk bn' w' rest
    | .peerError c m => .peerError c m
    | .timeoutError => .timeoutError
    | .rangeError => .rangeError

/-- `send_window` (worker.rs lines 232-259): every buffered frame is sent
as a Data packet — and then sent a second time after a fixed delay — with
block numbers assigned sequentially from `block_num` using 16-bit wrapping
addition.  The returned list is the sequence of packets handed to
`socket.send`, in order. -/
def sendWindow : List Block → Nat → List Packet
  | [], _ => []
  | frame :: rest, blockNum =>
    .data blockNum frame :: .data blockNum frame ::
      sendWindow rest (wadd blockNum 1)

/-- Overall result of `send_file` on a finite trace. -/
inductive SendFileResult where
  | ok (reachedEof : Bool) (finalWindow : List Block)
  | peerError (code : Nat) (msg : String)
  | timeoutError
  | rangeError
  | outOfEvents
  | outOfFuel
deriving DecidableEq, Repr

/-- The outer loop of `send_file` (worker.rs lines 136-174): fill the
window from the file, run the inner retry loop, and stop when the most
recent fill reported end-of-file and the window is empty; `ok` records the
fill flag and the window at the final break check. -/
def sendFileLoop (windowsize blkSize : Nat) :
    Nat → Nat → List Block → List Nat → List RecvEvent → SendFileResult
  | 0, _, _, _, _ => .outOfFuel
  | fuel + 1, blockNumber, w, file, evs =>
    let fr := Window.fill windowsize blkSize w file
    match sendInner windowsize blockNumber fr.2.1 0 evs with
    | .brk bn' w' rest =>
      if fr.1 && w'.isEmpty then .ok fr.1 w'
      else sendFileLoop windowsize blkSize fuel bn' w' fr.2.2 rest
    | .peerError c m => .peerError c m
    | .timeoutError => .timeoutError
    | .rangeError => .rangeError
    | .exhausted _ _ _ => .outOfEvents

/-- `send_file` (worker.rs lines 132-177): the base block number starts
at 1 and the window buffer starts empty. -/
def sendFile (windowsize blkSize : Nat) (file : List Nat)
    (fuel : Nat) (evs : List RecvEvent) : SendFileResult :=
  sendFileLoop windowsize blkSize fuel 1 [] file evs

/-- Result of handling one received event in the receive inner loop
(worker.rs lines 188-218).  `brk` carries the length of the last accepted
payload (`size`), read after the loop. -/
inductive RecvStepResult where
  | cont (blockNumber : Nat) (w : List Block) (retryCnt : Nat)
  | brk (blockNumber : Nat) (w : List Block) (size : Nat)
  | peerError (code : Nat) (msg : String)
  | timeoutError
  | capacityError
deriving DecidableEq, Repr

/-- One iteration of the `match self.socket.recv_with_size(..)` in
`receive_file` (worker.rs lines 188-218): a Data packet whose block number
is exactly `block_number.wrapping_add(1)` is accepted (base advanced,
payload appended); the loop breaks if the payload was short or the window
became full.  Any other Data packet is silently ignored.  A peer Error
aborts; anything else counts toward the retry budget. -/
def recvStep (blkSize windowsize blockNumber : Nat) (w : List Block)
    (retryCnt : Nat) : RecvEvent → RecvStepResult
  | .ok (.data rbn d) =>
    if rbn = wadd blockNumber 1 then
      match Window.add windowsize d w with
      | some w' =>
        if d.length < blkSize then .brk rbn w' d.length
        else if Window.isFull windowsize w' then .brk rbn w' d.length
        else .cont rbn w' retryCnt
      | none => .capacityError
    else .cont blockNumber w retryCnt
  | .ok (.error c m) => .peerError c m
  | _ =>
    if retryCnt + 1 = MAX_RETRIES then .timeoutError
    else .cont blockNumber w (retryCnt + 1)

/-- Result of the receive inner loop over a finite event list. -/
inductive RecvInnerResult where
  | brk (blockNumber : Nat) (w : List Block) (size : Nat)
      (rest : List RecvEvent)
  | peerError (code : Nat) (msg : String)
  | timeoutError
  | capacityError
  | exhausted (blockNumber : Nat) (w : List Block) (retryCnt : Nat)
deriving DecidableEq, Repr

/-- The inner loop of `receive_file` (worker.rs lines 187-219), driven by
a finite list of receive events. -/
def recvInner (blkSize windowsize blockNumber : Nat) (w : List Block)
    (retryCnt : Nat) : List RecvEvent → RecvInnerResult
  | [] => .exhausted blockNumber w retryCnt
  | e :: rest =>
    match recvStep blkSize windowsize blockNumber w retryCnt e with
    | .cont bn' w' r' => recvInner blkSize windowsize bn' w' r' rest
    | .brk bn' w' s => .brk bn' w' s rest
    | .peerError c m => .peerError c m
    | .timeoutError => .timeoutError
    | .capacityError => .capacityError

/-- Observable actions of the spawned transfer threads and of cleanup
(worker.rs lines 75-94 and 105-127): success/error log lines, the
`fs::remove_file` attempt, and the cleanup-failure log line. -/
inductive Effect where
  | printedSuccess
  | printedError (msg : String)
  | attemptedRemove
  | printedCleanupError
deriving DecidableEq, Repr

/-- Body of the thread spawned by `Worker::send` (worker.rs lines 75-94):
a successful transfer prints a success line, a failed one prints the
error; nothing else happens. -/
def sendThreadBody : Except String Unit → List Effect
  | .ok _ => [.printedSuccess]
  | .error e => [.printedError e]

/-- `handle_receive` (worker.rs lines 106-110): create the destination
file, then run `receive_file`; a creation failure short-circuits. -/
def handleReceive (createResult : Except String Unit)
    (receiveResult : Except String Unit) : Except String Unit :=
  match createResult with
  | .ok _ => receiveResult
  | .error e => .error e

/-- Body of the thread spawned by `Worker::receive` (worker.rs lines
105-127): on success print a success line; on any error print the error,
then attempt `fs::remove_file` on the destination, and if that removal
fails print a cleanup log line (the original error stays the one
reported). -/
def receiveThreadBody (createResult receiveResult : Except String Unit)
    (removeSucceeds : Bool) : List Effect :=
  match handleReceive createResult receiveResult with
  | .ok _ => [.printedSuccess]
  | .error e =>
    [.printedError e, .attemptedRemove] ++
      (if removeSucceeds then [] else [.printedCleanupError])

/-- `Worker::send` (worker.rs lines 71-97): reads the socket's remote
address (`unwrap` diverges when there is none, modelled as `none`), spawns
the transfer thread, and returns `Ok(())` at once; the transfer outcome
only shows up as the thread's printed effects. -/
def Worker.send (remoteAddr : Option String)
    (handleSendResult : Except String Unit) :
    Option (Except String Unit × List Effect) :=
  match remoteAddr with
  | none => none
  | some _ => some (.ok (), sendThreadBody handleSendResult)

/-- `Worker::receive` (worker.rs lines 101-130): reads the socket's remote
address (`unwrap` diverges when there is none, modelled as `none`), spawns
the transfer thread, and returns `Ok(())` at once; the transfer outcome
only shows up as the thread's printed effects. -/
def Worker.receive (remoteAddr : Option String)
    (createResult receiveResult : Except String Unit)
    (removeSucceeds : Bool) :
    Option (Except String Unit × List Effect) :=
  match remoteAddr with
  | none => none
  | some _ =>
    some (.ok (), receiveThreadBody createResult receiveResult removeSucceeds)

/-- Renaming of a send-step outcome under a uniform 16-bit shift of all
block numbers by `k`: window contents and retry bookkeeping are untouched,
base block numbers are shifted. -/
def shiftSendResult (k : Nat) : SendStepResult → SendStepResult
  | .cont bn w r => .cont (wadd bn k) w r
  | .brk bn w => .brk (wadd bn k) w
  | x => x

/-- Renaming of a receive-step outcome under a uniform 16-bit shift of all
block numbers by `k`. -/
def shiftRecvResult (k : Nat) : RecvStepResult → RecvStepResult
  | .cont bn w r => .cont (wadd bn k) w r
  | .brk bn w s => .brk (wadd bn k) w s
  | x => x

/-- C1: in the send path, an Ack(n) whose wrapped difference `diff` from
the base block number is at most `windowsize` advances the base to `n+1`
(mod 65536), removes exactly `diff + 1` entries from the window buffer,
and exits the inner retry loop (the outer loop then refills). -/
theorem ack_in_window_advances_base (windowsize blockNumber n retryCnt : Nat)
    (w : List Block) (rest : List RecvEvent)
    (h1 : wsub n blockNumber ≤ windowsize)
    (h2 : wsub n blockNumber + 1 ≤ w.length) :
    sendStep windowsize blockNumber w retryCnt (.ok (.ack n)) =
      .brk (wadd n 1) (w.drop (wsub n blockNumber + 1)) ∧
    sendInner windowsize blockNumber w retryCnt (.ok (.ack n) :: rest) =
      .brk (wadd n 1) (w.drop (wsub n blockNumber + 1)) rest ∧
    (w.drop (wsub n blockNumber + 1)).length + (wsub n blockNumber + 1) =
      w.length := by
  have hstep : sendStep windowsize blockNumber w retryCnt (.ok (.ack n)) =
      .brk (wadd n 1) (w.drop (wsub n blockNumber + 1)) := by
    simp only [sendStep, Window.remove, if_pos h1, if_pos h2]
  refine ⟨hstep, ?_, ?_⟩
  · simp only [sendInner, hstep]
  · have hlen := List.length_drop (wsub n blockNumber + 1) w
    omega

/-- C1 witness: Ack(2) at base 1 with windowsize 2 and three buffered
entries advances the base to 3 and removes two entries. -/
theorem ack_in_window_advances_base_witness :
    sendStep 2 1 [[0], [1], [2]] 0 (.ok (.ack 2)) =
      .brk (wadd 2 1) ([[0], [1], [2]].drop (wsub 2 1 + 1)) ∧
    sendInner 2 1 [[0], [1], [2]] 0 [.ok (.ack 2)] =
      .brk (wadd 2 1) ([[0], [1], [2]].drop (wsub 2 1 + 1)) [] ∧
    ([[0], [1], [2]].drop (wsub 2 1 + 1)).length + (wsub 2 1 + 1) =
      [[0], [1], [2]].length :=
  ack_in_window_advances_base 2 1 2 0 [[0], [1], [2]] []
    (by decide) (by decide)

/-- C2: in the send path, an Ack(n) whose wrapped difference from the base
exceeds `windowsize` mutates neither the base block number nor the window
buffer, does not touch the retry counter, and the inner loop just keeps
waiting on the remaining events. -/
theorem stale_ack_ignored (windowsize blockNumber n retryCnt : Nat)
    (w : List Block) (rest : List RecvEvent)
    (h : windowsize < wsub n blockNumber) :
    sendStep windowsize blockNumber w retryCnt (.ok (.ack n)) =
      .cont blockNumber w retryCnt ∧
    sendInner windowsize blockNumber w retryCnt (.ok (.ack n) :: rest) =
      sendInner windowsize blockNumber w retryCnt rest := by
  have hstep : sendStep windowsize blockNumber w retryCnt (.ok (.ack n)) =
      .cont blockNumber w retryCnt := by
    simp only [sendStep, if_neg (Nat.not_le.mpr h)]
  exact ⟨hstep, by simp only [sendInner, hstep]⟩

/-- C2 witness: with windowsize 1 and base 0, Ack(5) has diff 5 > 1 and
changes nothing. -/
theorem stale_ack_ignored_witness :
    sendStep 1 0 [[3]] 2 (.ok (.ack 5)) = .cont 0 [[3]] 2 ∧
    sendInner 1 0 [[3]] 2 [.ok (.ack 5), .err] =
      sendInner 1 0 [[3]] 2 [.err] :=
  stale_ack_ignored 1 0 5 2 [[3]] [.err] (by decide)

/-- C3 counterexample: a window holding one buffered entry is transmitted
as two Data packets, not one — `send_window` sends each frame twice
(worker.rs lines 238-253), refuting "one Data packet per buffered entry". -/
theorem send_window_duplicates_each_frame :
    sendWindow [[7]] 1 = [.data 1 [7], .data 1 [7]] ∧
    (sendWindow [[7]] 1).length ≠ [[7]].length := by decide

/-- C3 amended: every window transmission emits two identical Data packets
per buffered entry, in buffer order, with block numbers assigned
sequentially (16-bit wrapping) starting at the base block number: the
packets at positions 2i and 2i+1 both carry block number base + i
(mod 65536) and the i-th buffered frame. -/
theorem send_window_sequential (w : List Block) (blockNum : Nat)
    (hbn : blockNum < 65536) :
    (sendWindow w blockNum).length = 2 * w.length ∧
    ∀ i, i < w.length →
      (sendWindow w blockNum)[2 * i]? =
        some (.data (wadd blockNum i) (w.getD i [])) ∧
      (sendWindow w blockNum)[2 * i + 1]? =
        some (.data (wadd blockNum i) (w.getD i [])) := by
  induction w generalizing blockNum with
  | nil => exact ⟨rfl, fun i hi => absurd hi (by simp)⟩
  | cons f rest ih =>
    have hbn' : wadd blockNum 1 < 65536 := Nat.mod_lt _ (by omega)
    obtain ⟨ihlen, ihget⟩ := ih (wadd blockNum 1) hbn'
    constructor
    · simp only [sendWindow, List.length_cons, ihlen, List.length_cons]
      omega
    · intro i hi
      match i with
      | 0 =>
        have h0 : wadd blockNum 0 = blockNum := by
          simp only [wadd]; omega
        simp [sendWindow, h0]
      | j + 1 =>
        have hj : j < rest.length := by
          simp only [List.length_cons] at hi; omega
        obtain ⟨hg1, hg2⟩ := ihget j hj
        have hshift : wadd (wadd blockNum 1) j = wadd blockNum (j + 1) := by
          simp only [wadd]; omega
        have e1 : 2 * (j + 1) = (2 * j + 1) + 1 := by omega
        have e2 : 2 * (j + 1) + 1 = ((2 * j + 1) + 1) + 1 := by omega
        constructor
        · rw [e1]
          simpa [sendWindow, hshift] using hg1
        · rw [e2]
          simpa [sendWindow, hshift] using hg2

/-- C3 amended witness: a two-entry window at base 65535 is sent as four
packets, with block numbers 65535, 65535, 0, 0. -/
theorem send_window_sequential_witness :
    (sendWindow [[4], [5]] 65535).length = 2 * [[4], [5]].length ∧
    ∀ i, i < [[4], [5]].length →
      (sendWindow [[4], [5]] 65535)[2 * i]? =
        some (.data (wadd 65535 i) ([[4], [5]].getD i [])) ∧
      (sendWindow [[4], [5]] 65535)[2 * i + 1]? =
        some (.data (wadd 65535 i) ([[4], [5]].getD i [])) :=
  send_window_sequential [[4], [5]] 65535 (by decide)

/-- C4: six consecutive failed polls (no packet or malformed packet)
exhaust the retry budget `MAX_RETRIES = 6`: the send inner loop, the
receive inner loop, and the whole send transfer all terminate with the
timeout failure instead of continuing to wait on later events. -/
theorem retry_budget_times_out
    (windowsize blkSize blockNumber blockNumber2 fuel : Nat)
    (w w2 : List Block) (file : List Nat) (evs evs2 evs3 : List RecvEvent) :
    sendInner windowsize blockNumber w 0
        (List.replicate MAX_RETRIES .err ++ evs) = .timeoutError ∧
    recvInner blkSize windowsize blockNumber2 w2 0
        (List.replicate MAX_RETRIES .err ++ evs2) = .timeoutError ∧
    sendFileLoop windowsize blkSize (fuel + 1) blockNumber w file
        (List.replicate MAX_RETRIES .err ++ evs3) = .timeoutError := by
  have hsend : ∀ (bn : Nat) (v : List Block) (es : List RecvEvent),
      sendInner windowsize bn v 0
        (List.replicate MAX_RETRIES .err ++ es) = .timeoutError := by
    intro bn v es
    simp [MAX_RETRIES, List.replicate, sendInner, sendStep]
  refine ⟨hsend _ _ _, ?_, ?_⟩
  · simp [MAX_RETRIES, List.replicate, recvInner, recvStep]
  · simp only [sendFileLoop, hsend]

/-- C5: in the receive path, a Data packet is accepted — base advanced to
its block number and payload appended — exactly when its block number is
the expected block number plus one with 16-bit wrapping (the loop then
breaks if the payload is short or the window is full); a Data packet with
any other block number leaves base, buffer and retry counter untouched and
the loop continues on the remaining events. -/
theorem recv_accepts_iff_next_block
    (blkSize windowsize blockNumber rbn retryCnt : Nat)
    (w : List Block) (d : Block) (rest : List RecvEvent)
    (hroom : w.length < windowsize) :
    (rbn = wadd blockNumber 1 →
      recvStep blkSize windowsize blockNumber w retryCnt
          (.ok (.data rbn d)) =
        if d.length < blkSize then .brk rbn (w ++ [d]) d.length
        else if Window.isFull windowsize (w ++ [d]) then
          .brk rbn (w ++ [d]) d.length
        else .cont rbn (w ++ [d]) retryCnt) ∧
    (rbn ≠ wadd blockNumber 1 →
      recvStep blkSize windowsize blockNumber w retryCnt
          (.ok (.data rbn d)) = .cont blockNumber w retryCnt ∧
      recvInner blkSize windowsize blockNumber w retryCnt
          (.ok (.data rbn d) :: rest) =
        recvInner blkSize windowsize blockNumber w retryCnt rest) := by
  constructor
  · intro hnext
    simp only [recvStep, if_pos hnext, Window.add, if_pos hroom]
  · intro hother
    have hstep : recvStep blkSize windowsize blockNumber w retryCnt
        (.ok (.data rbn d)) = .cont blockNumber w retryCnt := by
      simp only [recvStep, if_neg hother]
    exact ⟨hstep, by simp only [recvInner, hstep]⟩

/-- C5 witness: with expected block 0, Data(1) is accepted and appended;
Data(3) is ignored without any state change. -/
theorem recv_accepts_iff_next_block_witness :
    ((1 : Nat) = wadd 0 1 →
      recvStep 2 2 0 [] 0 (.ok (.data 1 [9])) =
        if ([9] : Block).length < 2 then .brk 1 [[9]] ([9] : Block).length
        else if Window.isFull 2 [[9]] then .brk 1 [[9]] ([9] : Block).length
        else .cont 1 [[9]] 0) ∧
    ((1 : Nat) ≠ wadd 0 1 →
      recvStep 2 2 0 [] 0 (.ok (.data 1 [9])) = .cont 0 [] 0 ∧
      recvInner 2 2 0 [] 0 [.ok (.data 1 [9]), .err] =
        recvInner 2 2 0 [] 0 [.err]) :=
  recv_accepts_iff_next_block 2 2 0 1 0 [] [9] [.err] (by decide)

/-- C7: a peer Error packet aborts the transfer at once in both paths,
carrying the peer-supplied code and message; no retry is counted and no
later event is consumed. -/
theorem peer_error_aborts
    (windowsize blkSize blockNumber blockNumber2 retryCnt retryCnt2 : Nat)
    (code : Nat) (msg : String) (w w2 : List Block)
    (rest rest2 : List RecvEvent) :
    sendInner windowsize blockNumber w retryCnt
        (.ok (.error code msg) :: rest) = .peerError code msg ∧
    recvInner blkSize windowsize blockNumber2 w2 retryCnt2
        (.ok (.error code msg) :: rest2) = .peerError code msg := by
  constructor
  · simp only [sendInner, sendStep]
  · simp only [recvInner, recvStep]

/-- C6: the send outer loop stops exactly on end-of-file with a drained
window: whenever `send_file` finishes successfully, the most recent fill
reported end-of-file and the window buffer ended empty; and after any
round whose inner loop broke on a valid ack, the loop returns success when
the fill of that round reported end-of-file and the window is now empty,
and otherwise continues with another fill. -/
theorem send_loop_stops_iff_eof_and_empty
    (windowsize blkSize fuel blockNumber : Nat)
    (w : List Block) (file : List Nat) (evs : List RecvEvent) :
    (∀ e fw, sendFileLoop windowsize blkSize fuel blockNumber w file evs =
        .ok e fw → e = true ∧ fw = []) ∧
    (∀ eof w1 file1 bn' w2 rest, 0 < fuel →
      Window.fill windowsize blkSize w file = (eof, w1, file1) →
      sendInner windowsize blockNumber w1 0 evs = .brk bn' w2 rest →
      sendFileLoop windowsize blkSize fuel blockNumber w file evs =
        if eof && w2.isEmpty then SendFileResult.ok eof w2
        else sendFileLoop windowsize blkSize (fuel - 1) bn' w2 file1 rest) := by
  constructor
  · induction fuel generalizing blockNumber w file evs with
    | zero => intro e fw h; simp [sendFileLoop] at h
    | succ fuel ih =>
      intro e fw h
      simp only [sendFileLoop] at h
      split at h
      · split at h
        · rename_i hc
          injection h with h1 h2
          subst h1
          subst h2
          simp only [Bool.and_eq_true, List.isEmpty_iff] at hc
          exact hc
        · exact ih _ _ _ _ _ _ h
      · exact absurd h (by simp)
      · exact absurd h (by simp)
      · exact absurd h (by simp)
      · exact absurd h (by simp)
  · intro eof w1 file1 bn' w2 rest hfuel hfill hinner
    obtain ⟨k, rfl⟩ : ∃ k, fuel = k + 1 := ⟨fuel - 1, by omega⟩
    simp only [sendFileLoop, hfill, hinner, Nat.add_sub_cancel]

/-- C6 witness: a one-byte-block transfer of the empty file: the only fill
reports end-of-file, Ack(1) drains the window, and the loop returns
success with the end-of-file flag set and an empty buffer. -/
theorem send_loop_stops_iff_eof_and_empty_witness :
    sendFileLoop 1 1 1 1 [] [] [.ok (.ack 1)] = .ok true [] := by
  have h := (send_loop_stops_iff_eof_and_empty 1 1 1 1 [] []
      [.ok (.ack 1)]).2 true [[]] [] 2 [] [] (by decide) (by decide)
      (by decide)
  simpa using h

/-- C8: block-number wraparound is uniform: shifting the base and the
incoming block number of a send-path Ack or a receive-path Data packet by
any constant k (mod 65536) yields the same step outcome with all block
numbers shifted by k, windows and retry counters untouched — so the pair
(65535, 0) behaves exactly like any other consecutive pair. -/
theorem wraparound_uniform
    (windowsize blkSize bn n k retryCnt retryCnt2 : Nat)
    (w w2 : List Block) (d : Block)
    (hbn : bn < 65536) (hn : n < 65536) :
    sendStep windowsize (wadd bn k) w retryCnt (.ok (.ack (wadd n k))) =
      shiftSendResult k (sendStep windowsize bn w retryCnt (.ok (.ack n))) ∧
    recvStep blkSize windowsize (wadd bn k) w2 retryCnt2
        (.ok (.data (wadd n k) d)) =
      shiftRecvResult k
        (recvStep blkSize windowsize bn w2 retryCnt2 (.ok (.data n d))) := by
  have hsub : wsub (wadd n k) (wadd bn k) = wsub n bn := by
    simp only [wadd, wsub]; omega
  have hadd1 : wadd (wadd n k) 1 = wadd (wadd n 1) k := by
    simp only [wadd]; omega
  have hiff : wadd n k = wadd (wadd bn k) 1 ↔ n = wadd bn 1 := by
    simp only [wadd]; omega
  constructor
  · simp only [sendStep, hsub]
    by_cases hle : wsub n bn ≤ windowsize
    · simp only [if_pos hle]
      cases hrem : Window.remove (wsub n bn + 1) w with
      | some w' => simp [shiftSendResult, hadd1]
      | none => simp [shiftSendResult]
    · simp only [if_neg hle, shiftSendResult]
  · by_cases hnext : n = wadd bn 1
    · have hnext' : wadd n k = wadd (wadd bn k) 1 := hiff.mpr hnext
      simp only [recvStep, if_pos hnext', if_pos hnext]
      cases haddw : Window.add windowsize d w2 with
      | some w' =>
        by_cases hsz : d.length < blkSize
        · simp [haddw, hsz, shiftRecvResult]
        · by_cases hfull : Window.isFull windowsize w'
          · simp [haddw, hsz, hfull, shiftRecvResult]
          · simp [haddw, hsz, hfull, shiftRecvResult]
      | none => simp [haddw, shiftRecvResult]
    · have hnext' : ¬ wadd n k = wadd (wadd bn k) 1 := fun hh =>
        hnext (hiff.mp hh)
      simp only [recvStep, if_neg hnext', if_neg hnext, shiftRecvResult]

/-- C8 witness: with base 65535, acking block 65535 (diff 0) advances the
base to 0, and receiving Data block 0 after expected 65535 is accepted —
identically to the shifted-by-one instance of the same step. -/
theorem wraparound_uniform_witness :
    sendStep 2 (wadd 65535 1) [[8]] 0 (.ok (.ack (wadd 65535 1))) =
      shiftSendResult 1 (sendStep 2 65535 [[8]] 0 (.ok (.ack 65535))) ∧
    recvStep 4 2 (wadd 65535 1) [] 0 (.ok (.data (wadd 65535 1) [6])) =
      shiftRecvResult 1 (recvStep 4 2 65535 [] 0 (.ok (.data 65535 [6]))) :=
  wraparound_uniform 2 4 65535 65535 1 0 0 [[8]] [] [6]
    (by decide) (by decide)

/-- C9: when the receive thread finishes with an error after the
destination file was created, the error is reported, the partially written
destination file is deleted, and a failed deletion only adds a cleanup log
line after the original error — it never replaces it. -/
theorem receive_failure_deletes_file (e : String) (removeSucceeds : Bool) :
    receiveThreadBody (.ok ()) (.error e) removeSucceeds =
      [.printedError e, .attemptedRemove] ++
        (if removeSucceeds then [] else [.printedCleanupError]) ∧
    Effect.attemptedRemove ∈
      receiveThreadBody (.ok ()) (.error e) removeSucceeds ∧
    (receiveThreadBody (.ok ()) (.error e) removeSucceeds).head? =
      some (.printedError e) := by
  cases removeSucceeds <;> simp [receiveThreadBody, handleReceive]

/-- C10: when the socket reports a remote address, `Worker::send` and
`Worker::receive` return Ok(()) immediately after spawning the transfer
thread, whatever the transfer outcome; transfer errors surface only as
printed effects inside the thread, never in the returned value. -/
theorem entry_points_return_ok_immediately (addr : String)
    (handleSendResult createResult receiveResult : Except String Unit)
    (removeSucceeds : Bool) (e : String) :
    Worker.send (some addr) handleSendResult =
      some (.ok (), sendThreadBody handleSendResult) ∧
    Worker.receive (some addr) createResult receiveResult removeSucceeds =
      some (.ok (), receiveThreadBody createResult receiveResult
        removeSucceeds) ∧
    sendThreadBody (.error e) = [.printedError e] := by
  exact ⟨rfl, rfl, rfl⟩

end Tftpd
